import Mathlib

/-
Shallow embedding of `src/client/public/GreatSwordPack/blender_to_babylon.py`,
a Blender batch script that converts a hard-coded list of FBX animation
files to GLB.  Host-application (Blender) state is modelled explicitly as a
`Scene`; host calls that can fault are driven by a per-item oracle
(`ItemWorld`) since the host itself is opaque to the script.  Faults are
carried as their stringified form (the script only ever observes `str(e)`).
-/

namespace B2B

/-! ## Python string model

`pyRepAux` models Python `str.replace(old, new)` for a nonempty pattern:
scan left to right, replace every non-overlapping occurrence, continue
after the inserted replacement.  The `fuel` argument only makes the
recursion structural; each step consumes at least one character of the
scanned string, so `fuel = s.length` never runs out. -/

def pyRepAux (old new : List Char) : Nat → List Char → List Char
  | _, [] => []
  | 0, s => s
  | fuel + 1, c :: cs =>
    if old ≠ [] ∧ (c :: cs).take old.length = old then
      new ++ pyRepAux old new fuel ((c :: cs).drop old.length)
    else
      c :: pyRepAux old new fuel cs

def pyReplace (s old new : String) : String :=
  String.mk (pyRepAux old.data new.data s.data.length s.data)

/-! ## Path model

The script runs on Windows (`r"C:\..."` folders); `os.path.join` with an
absolute directory not ending in a separator and a relative file name is
directory + separator + file. -/

def osPathJoin (dir file : String) : String := dir ++ "\\" ++ file

def fbx_folder : String :=
  "C:\\Users\\coder\\Documents\\Github\\Sacred-Heart\\client\\public\\Great Sword Pack"

def output_folder : String :=
  "C:\\Users\\coder\\Documents\\Github\\Sacred-Heart\\client\\public\\GreatSwordPack"

def fbx_files : List String :=
  [ "Maria WProp J J Ong.fbx"
  , "great sword idle.fbx"
  , "great sword walk.fbx"
  , "great sword run.fbx"
  , "great sword attack.fbx"
  , "great sword slash.fbx"
  , "great sword blocking.fbx"
  , "great sword casting.fbx"
  , "great sword jump.fbx"
  , "two handed sword death.fbx"
  , "great sword kick.fbx"
  , "great sword high spin attack.fbx"
  , "great sword power up.fbx"
  ]

/-- The stems of `fbx_files` (used only to state the naming claim). -/
def stem_list : List String :=
  [ "Maria WProp J J Ong"
  , "great sword idle"
  , "great sword walk"
  , "great sword run"
  , "great sword attack"
  , "great sword slash"
  , "great sword blocking"
  , "great sword casting"
  , "great sword jump"
  , "two handed sword death"
  , "great sword kick"
  , "great sword high spin attack"
  , "great sword power up"
  ]

def srcPath (f : String) : String := osPathJoin fbx_folder f

def dstPath (f : String) : String :=
  osPathJoin output_folder (pyReplace f ".fbx" ".glb")

/-! ## Scene model

`bpy` data as far as the script touches it: objects (with a type tag and a
selection flag), and the three data-block collections the purge loops walk
(`bpy.data.meshes`, `bpy.data.armatures`, `bpy.data.actions`).  A block
carries its host-maintained reference count `users`; deleting an object
releases the references that object held (`dataRefs`). -/

inductive ObjType
  | MESH
  | ARMATURE
  | OTHER
deriving DecidableEq

inductive BlockKind
  | mesh
  | armature
  | action
deriving DecidableEq

structure Block where
  id : Nat
  users : Nat
deriving DecidableEq

structure Object where
  otype : ObjType
  selected : Bool
  dataRefs : List (BlockKind × Nat)
deriving DecidableEq

structure Scene where
  objects : List Object
  meshes : List Block
  armatures : List Block
  actions : List Block
deriving DecidableEq

/-- References held by the objects `objs` on block `i` of kind `k`. -/
def refCount (k : BlockKind) (objs : List Object) (i : Nat) : Nat :=
  ((objs.flatMap (fun o => o.dataRefs)).filter (fun r => r == (k, i))).length

/-- Host bookkeeping: deleted objects release their data-block references. -/
def decUsers (k : BlockKind) (deleted : List Object) (bs : List Block) : List Block :=
  bs.map (fun b => { b with users := b.users - refCount k deleted b.id })

/-- Model of `bpy.ops.object.select_all(action='SELECT')`. -/
def selectAllObjects (s : Scene) : Scene :=
  { s with objects := s.objects.map (fun o => { o with selected := true }) }

/-- Model of `bpy.ops.object.delete()`: removes the selected objects. -/
def deleteSelected (s : Scene) : Scene :=
  let deleted := s.objects.filter (fun o => o.selected)
  { objects := s.objects.filter (fun o => !o.selected)
  , meshes := decUsers BlockKind.mesh deleted s.meshes
  , armatures := decUsers BlockKind.armature deleted s.armatures
  , actions := decUsers BlockKind.action deleted s.actions }

/-- Model of `for block in collection: if block.users == 0: collection.remove(block)`.
Python iterates the collection by index: after yielding element `n` the
iterator index is `n + 1`, and removing the yielded element shifts the rest
left, so the element that was right after a removed one is never visited.
`fuel` makes the recursion structural; the loop takes at most `bs.length`
steps (the index grows by one per step and the list never grows), so
`fuel = bs.length` is exact. -/
def purgeFrom : Nat → Nat → List Block → List Block
  | 0, _, bs => bs
  | fuel + 1, n, bs =>
    if h : n < bs.length then
      if (bs.get ⟨n, h⟩).users = 0 then
        purgeFrom fuel (n + 1) (bs.eraseIdx n)
      else
        purgeFrom fuel (n + 1) bs
    else bs

def purgePass (bs : List Block) : List Block := purgeFrom bs.length 0 bs

/-- The three orphan-purge loops of the script. -/
def purgeScene (s : Scene) : Scene :=
  { s with
    meshes := purgePass s.meshes
  , armatures := purgePass s.armatures
  , actions := purgePass s.actions }

/-- The scene-reset step: select all, delete, then purge orphan data. -/
def resetScene (s : Scene) : Scene :=
  purgeScene (deleteSelected (selectAllObjects s))

/-- Content added by `bpy.ops.import_scene.fbx` on success. -/
structure ImportPayload where
  objs : List Object
  meshBlocks : List Block
  armatureBlocks : List Block
  actionBlocks : List Block

/-- Model of a successful FBX import: appends the payload to the scene. -/
def importScene (s : Scene) (p : ImportPayload) : Scene :=
  { objects := s.objects ++ p.objs
  , meshes := s.meshes ++ p.meshBlocks
  , armatures := s.armatures ++ p.armatureBlocks
  , actions := s.actions ++ p.actionBlocks }

/-- Number of objects of type `t` in a list (the list comprehensions at
lines 62-63 of the script). -/
def objListCount (t : ObjType) (l : List Object) : Nat :=
  (l.filter (fun o => o.otype == t)).length

def objCount (t : ObjType) (s : Scene) : Nat := objListCount t s.objects

/-! ## Batch model

Per-item outcome (the spec's `ConversionResult`), the console lines the
script prints, and the filesystem / host calls it makes.  The per-item
oracle `ItemWorld` fixes, for one iteration, whether each opaque host call
faults (with its stringified reason) and what a successful import adds. -/

inductive Outcome
  | Converted
  | Skipped
  | Failed (reason : String)
deriving DecidableEq

inductive Line
  | sep
  | title
  | notFound (f : String)
  | importing (f : String)
  | found (meshCnt armatureCnt : Nat)
  | exporting (g : String)
  | converted (f : String)
  | errorLine (f msg : String)
  | complete
  | savedTo (p : String)
  | nextStepsHeader
  | hint1
  | hint2
  | hint3
deriving DecidableEq

inductive Event
  | checkSrc (path : String)
  | hostSelectAll
  | hostDelete
  | hostPurgeMeshes
  | hostPurgeArmatures
  | hostPurgeActions
  | hostImport (path : String)
  | hostExport (filepath fmt : String) (anims forceSampling : Bool)
deriving DecidableEq

/-- Whether an event is a call into the host application (everything except
the `os.path.exists` filesystem check). -/
def Event.isHost : Event → Bool
  | .checkSrc _ => false
  | _ => true

/-- Whether an event is a filesystem existence check. -/
def Event.isCheck : Event → Bool
  | .checkSrc _ => true
  | _ => false

/-- Oracle for one iteration: which host call (if any) raises, and what a
successful import adds to the scene.  Fault payloads are already the
stringified reason `str(e)`. -/
structure ItemWorld where
  clearFault : Option String
  importResult : Except String ImportPayload
  selectFault : Option String
  exportFault : Option String

/-- The first fault the try-block hits for this item, in program order
(clear, import, select, export), or `none` when the item converts. -/
def firstFault (w : ItemWorld) : Option String :=
  match w.clearFault with
  | some e => some e
  | none =>
    match w.importResult with
    | .error e => some e
    | .ok _ =>
      match w.selectFault with
      | some e => some e
      | none => w.exportFault

/-- The outcome of one item, as a function of the filesystem and the item's
oracle alone (no scene dependence). -/
def jobOutcome (fs : String → Bool) (f : String) (w : ItemWorld) : Outcome :=
  if fs (srcPath f) = false then .Skipped
  else
    match firstFault w with
    | some e => .Failed e
    | none => .Converted

structure JobResult where
  outcome : Outcome
  lines : List Line
  events : List Event
deriving DecidableEq

/-- One iteration of the batch loop (lines 33-81 of the script): path
computation, the existence check, and the try/except conversion attempt.
A fault leaves every mutation made before it in place and the except
handler only prints; it never touches the scene. -/
def runJob (fs : String → Bool) (s : Scene) (f : String) (w : ItemWorld) :
    JobResult × Scene :=
  let fbxPath := srcPath f
  let glbPath := dstPath f
  if fs fbxPath = false then
    (⟨.Skipped, [.notFound f], [.checkSrc fbxPath]⟩, s)
  else
    match w.clearFault with
    | some e =>
        (⟨.Failed e, [.errorLine f e], [.checkSrc fbxPath, .hostSelectAll]⟩, s)
    | none =>
      let s1 := resetScene s
      match w.importResult with
      | .error e =>
          (⟨.Failed e, [.importing f, .errorLine f e],
            [.checkSrc fbxPath, .hostSelectAll, .hostDelete, .hostPurgeMeshes,
             .hostPurgeArmatures, .hostPurgeActions, .hostImport fbxPath]⟩, s1)
      | .ok p =>
        let s2 := importScene s1 p
        let meshCnt := objCount ObjType.MESH s2
        let armatureCnt := objCount ObjType.ARMATURE s2
        match w.selectFault with
        | some e =>
            (⟨.Failed e, [.importing f, .found meshCnt armatureCnt, .errorLine f e],
              [.checkSrc fbxPath, .hostSelectAll, .hostDelete, .hostPurgeMeshes,
               .hostPurgeArmatures, .hostPurgeActions, .hostImport fbxPath,
               .hostSelectAll]⟩, s2)
        | none =>
          let s3 := selectAllObjects s2
          match w.exportFault with
          | some e =>
              (⟨.Failed e,
                [.importing f, .found meshCnt armatureCnt,
                 .exporting (pyReplace f ".fbx" ".glb"), .errorLine f e],
                [.checkSrc fbxPath, .hostSelectAll, .hostDelete, .hostPurgeMeshes,
                 .hostPurgeArmatures, .hostPurgeActions, .hostImport fbxPath,
                 .hostSelectAll, .hostExport glbPath "GLB" true true]⟩, s3)
          | none =>
              (⟨.Converted,
                [.importing f, .found meshCnt armatureCnt,
                 .exporting (pyReplace f ".fbx" ".glb"), .converted f],
                [.checkSrc fbxPath, .hostSelectAll, .hostDelete, .hostPurgeMeshes,
                 .hostPurgeArmatures, .hostPurgeActions, .hostImport fbxPath,
                 .hostSelectAll, .hostExport glbPath "GLB" true true]⟩, s3)

/-- The batch loop: iterations in order, threading the host scene. -/
def runItems (fs : String → Bool) : Scene → List (String × ItemWorld) →
    List JobResult × Scene
  | s, [] => ([], s)
  | s, fw :: rest =>
    let step := runJob fs s fw.1 fw.2
    let restRun := runItems fs step.2 rest
    (step.1 :: restRun.1, restRun.2)

/-- The opening banner (lines 29-31 of the script). -/
def openingLines : List Line := [.sep, .title, .sep]

/-- The closing banner and hints (lines 83-90 of the script; note the
script prints `fbx_folder` in the saved-to line). -/
def closingLines : List Line :=
  [.sep, .complete, .sep, .savedTo fbx_folder, .nextStepsHeader,
   .hint1, .hint2, .hint3]

/-- Everything the whole script prints, for a given filesystem, starting
scene, and item list with oracles. -/
def runBatch (fs : String → Bool) (s : Scene)
    (items : List (String × ItemWorld)) : List Line :=
  openingLines ++ ((runItems fs s items).1.map (fun r => r.lines)).flatten
    ++ closingLines

/-- A scene with no zero-reference data block left to purge. -/
def noOrphans (s : Scene) : Prop :=
  ∀ b ∈ s.meshes ++ s.armatures ++ s.actions, b.users ≠ 0

/-! ## Concrete instances used to exercise the model -/

def emptyScene : Scene := ⟨[], [], [], []⟩

/-- A filesystem on which every path exists. -/
def fsAll : String → Bool := fun _ => true

/-- A filesystem on which no path exists. -/
def fsNone : String → Bool := fun _ => false

/-- A filesystem on which only the source path of `x.fbx` exists (in
particular the destination path does not). -/
def fsOnly : String → Bool := fun p => p == srcPath "x.fbx"

/-- An item whose conversion succeeds with an empty import. -/
def wOk : ItemWorld := ⟨none, .ok ⟨[], [], [], []⟩, none, none⟩

/-- An item whose scene-clear step raises `boom`. -/
def wBad : ItemWorld := ⟨some "boom", .ok ⟨[], [], [], []⟩, none, none⟩

def c1Items : List (String × ItemWorld) :=
  [("a.fbx", wOk), ("b.fbx", wBad), ("c.fbx", wOk)]

/-- A leftover scene from a previous job: one stray mesh object. -/
def c3Scene : Scene := ⟨[⟨.MESH, false, []⟩], [], [], []⟩

/-- An import payload with one mesh object and one armature object. -/
def c3Payload : ImportPayload := ⟨[⟨.MESH, true, []⟩, ⟨.ARMATURE, true, []⟩], [], [], []⟩

def c3World : ItemWorld := ⟨none, .ok c3Payload, none, none⟩

/-- Two adjacent zero-reference mesh blocks, the state the purge loop
mishandles. -/
def c6Scene : Scene := ⟨[], [⟨0, 0⟩, ⟨1, 0⟩], [], []⟩

def c7Scene : Scene := ⟨[], [⟨0, 0⟩, ⟨1, 0⟩], [], []⟩

/-- A scene whose only data block is still referenced. -/
def c7CleanScene : Scene := ⟨[], [⟨0, 3⟩], [], []⟩

def c10Payload : ImportPayload := ⟨[⟨.MESH, false, []⟩], [⟨0, 1⟩], [], []⟩

/-- An item whose export step raises after a successful import. -/
def c10World : ItemWorld := ⟨none, .ok c10Payload, none, some "disk full"⟩

/-! ## Helper lemmas -/

theorem filter_unselected_map (l : List Object) :
    (l.map (fun o => { o with selected := true })).filter (fun o => !o.selected) = [] := by
  induction l with
  | nil => rfl
  | cons a t ih => simp [List.filter]

/-- The scene-reset step always empties the object list. -/
theorem resetScene_objects (s : Scene) : (resetScene s).objects = [] := by
  simp [resetScene, purgeScene, deleteSelected, selectAllObjects,
    filter_unselected_map]

theorem decUsers_nil (k : BlockKind) (bs : List Block) :
    decUsers k [] bs = bs := by
  induction bs with
  | nil => rfl
  | cons b t ih => simp [decUsers, refCount]

theorem purgeFrom_of_pos (bs : List Block) (h : ∀ b ∈ bs, b.users ≠ 0) :
    ∀ fuel n, purgeFrom fuel n bs = bs := by
  intro fuel
  induction fuel with
  | zero => intro n; rfl
  | succ fuel ih =>
    intro n
    by_cases hn : n < bs.length
    · have hu := h (bs.get ⟨n, hn⟩) (bs.get_mem n hn)
      simp [purgeFrom, hn, ih]
      intro hz
      exact absurd hz hu
    · simp [purgeFrom, hn]

theorem purgePass_of_pos (bs : List Block) (h : ∀ b ∈ bs, b.users ≠ 0) :
    purgePass bs = bs :=
  purgeFrom_of_pos bs h bs.length 0

/-- Resetting a scene that has no objects and no orphan data block changes
nothing. -/
theorem reset_of_clean (t : Scene) (hobj : t.objects = [])
    (hno : noOrphans t) : resetScene t = t := by
  rcases t with ⟨os, ms, ars, acs⟩
  obtain rfl : os = [] := hobj
  have hm : ∀ b ∈ ms, b.users ≠ 0 := fun b hb => hno b (by simp [hb])
  have ha : ∀ b ∈ ars, b.users ≠ 0 := fun b hb => hno b (by simp [hb])
  have hc : ∀ b ∈ acs, b.users ≠ 0 := fun b hb => hno b (by simp [hb])
  simp [resetScene, purgeScene, deleteSelected, selectAllObjects, decUsers_nil,
    purgePass_of_pos ms hm, purgePass_of_pos ars ha, purgePass_of_pos acs hc]

/-- The outcome of one iteration depends only on the filesystem and the
item's own oracle, never on the scene it starts from. -/
theorem runJob_outcome (fs : String → Bool) (s : Scene) (f : String)
    (w : ItemWorld) : (runJob fs s f w).1.outcome = jobOutcome fs f w := by
  rcases w with ⟨cf, ir, sf, ef⟩
  by_cases hx : fs (srcPath f) = false
  · simp [runJob, jobOutcome, hx]
  · cases cf <;> rcases ir with e | p <;> cases sf <;> cases ef <;>
      simp [runJob, jobOutcome, firstFault, hx]

theorem runItems_outcomes (fs : String → Bool)
    (items : List (String × ItemWorld)) : ∀ s : Scene,
    ((runItems fs s items).1).map (fun r => r.outcome)
      = items.map (fun fw => jobOutcome fs fw.1 fw.2) := by
  induction items with
  | nil => intro s; rfl
  | cons fw rest ih => intro s; simp [runItems, runJob_outcome, ih]

theorem runJob_complete_not_mem (fs : String → Bool) (s : Scene) (f : String)
    (w : ItemWorld) : Line.complete ∉ (runJob fs s f w).1.lines := by
  rcases w with ⟨cf, ir, sf, ef⟩
  by_cases hx : fs (srcPath f) = false
  · simp [runJob, hx]
  · cases cf <;> rcases ir with e | p <;> cases sf <;> cases ef <;>
      simp [runJob, hx]

theorem runItems_complete_not_mem (fs : String → Bool)
    (items : List (String × ItemWorld)) : ∀ s : Scene,
    Line.complete ∉ ((runItems fs s items).1.map (fun r => r.lines)).flatten := by
  induction items with
  | nil => intro s; simp [runItems]
  | cons fw rest ih =>
    intro s
    simp only [runItems, List.map_cons, List.flatten_cons, List.mem_append]
    push_neg
    exact ⟨runJob_complete_not_mem fs s fw.1 fw.2, ih _⟩

theorem mem_selectAll_selected (s : Scene) :
    ∀ o ∈ (selectAllObjects s).objects, o.selected = true := by
  intro o ho
  simp [selectAllObjects] at ho
  obtain ⟨x, _, rfl⟩ := ho
  rfl

/-- The counts the script reports are computed on the scene right after
reset-then-import, so they see only the payload of that import. -/
theorem count_import_reset (t : ObjType) (s : Scene) (p : ImportPayload) :
    objCount t (importScene (resetScene s) p) = objListCount t p.objs := by
  simp [objCount, importScene, resetScene_objects, objListCount]

/-! ## Claims -/

/-- C1: if the conversion attempt for item `k` raises a fault, the fault is
caught at the job boundary, outcome `Failed` with the stringified reason is
recorded for item `k`, and every other item is still attempted with its
outcome unaffected (each outcome is a function of that item alone); no
error propagates out of the batch loop (every item yields an outcome and
the result list has full length). -/
theorem C1_fault_containment (fs : String → Bool) (s : Scene)
    (items : List (String × ItemWorld)) (k : Nat) (e : String)
    (hk : k < items.length)
    (hex : fs (srcPath (items.get ⟨k, hk⟩).1) = true)
    (hf : firstFault (items.get ⟨k, hk⟩).2 = some e) :
    ((runItems fs s items).1).length = items.length ∧
    ((runItems fs s items).1).map (fun r => r.outcome)
      = items.map (fun fw => jobOutcome fs fw.1 fw.2) ∧
    (((runItems fs s items).1).map (fun r => r.outcome))[k]?
      = some (Outcome.Failed e) := by
  have hmap := runItems_outcomes fs items s
  refine ⟨?_, hmap, ?_⟩
  · have hlen := congrArg List.length hmap
    simpa using hlen
  · rw [hmap, List.getElem?_map, List.getElem?_eq_getElem hk]
    simp [List.get_eq_getElem] at hex hf
    simp [jobOutcome, hex, hf]

theorem C1_witness :
    (((runItems fsAll emptyScene c1Items).1).map (fun r => r.outcome))[1]?
      = some (Outcome.Failed "boom") :=
  (C1_fault_containment fsAll emptyScene c1Items 1 "boom" (by decide) rfl rfl).2.2

/-- C2: for a stem whose computed source path does not exist, the iteration
records outcome `Skipped`, emits the not-found notice, performs no host
call at all (its only event is the pure path-existence check), leaves the
scene untouched, and the batch proceeds to the next stem. -/
theorem C2_skip_on_missing (fs : String → Bool) (s : Scene) (f : String)
    (w : ItemWorld) (rest : List (String × ItemWorld))
    (h : fs (srcPath f) = false) :
    runJob fs s f w
      = (⟨.Skipped, [.notFound f], [.checkSrc (srcPath f)]⟩, s) ∧
    ((runJob fs s f w).1.events.filter (fun ev => ev.isHost)) = [] ∧
    runItems fs s ((f, w) :: rest)
      = ((⟨Outcome.Skipped, [Line.notFound f],
            [Event.checkSrc (srcPath f)]⟩ : JobResult)
          :: (runItems fs s rest).1, (runItems fs s rest).2) := by
  have h1 : runJob fs s f w
      = (⟨.Skipped, [.notFound f], [.checkSrc (srcPath f)]⟩, s) := by
    simp [runJob, h]
  refine ⟨h1, ?_, ?_⟩
  · rw [h1]
    rfl
  · simp [runItems, h1]

theorem C2_witness :
    runJob fsNone emptyScene "missing.fbx" wOk
      = (⟨Outcome.Skipped, [Line.notFound "missing.fbx"],
          [Event.checkSrc (srcPath "missing.fbx")]⟩, emptyScene) :=
  (C2_skip_on_missing fsNone emptyScene "missing.fbx" wOk [] rfl).1

/-- C3: whatever scene the previous iterations left behind, the reset step
empties the object list, it runs before the import (the event order is
check, select-all, delete, the three purges, then import), and the
mesh/armature counts the iteration reports are those of its own import
payload alone. -/
theorem C3_reset_before_import (fs : String → Bool) (s : Scene) (f : String)
    (w : ItemWorld) (p : ImportPayload)
    (hex : fs (srcPath f) = true) (hc : w.clearFault = none)
    (hi : w.importResult = .ok p) :
    (resetScene s).objects = [] ∧
    ((runJob fs s f w).1.events.take 7)
      = [.checkSrc (srcPath f), .hostSelectAll, .hostDelete, .hostPurgeMeshes,
         .hostPurgeArmatures, .hostPurgeActions, .hostImport (srcPath f)] ∧
    ((runJob fs s f w).1.lines)[1]?
      = some (.found (objListCount ObjType.MESH p.objs)
                     (objListCount ObjType.ARMATURE p.objs)) := by
  rcases w with ⟨cf, ir, sf, ef⟩
  obtain rfl : cf = none := hc
  obtain rfl : ir = .ok p := hi
  refine ⟨resetScene_objects s, ?_, ?_⟩ <;>
    cases sf <;> cases ef <;>
      simp [runJob, hex, count_import_reset]

theorem C3_witness :
    ((runJob fsAll c3Scene "b.fbx" c3World).1.lines)[1]?
      = some (Line.found 1 1) :=
  (C3_reset_before_import fsAll c3Scene "b.fbx" c3World c3Payload rfl rfl rfl).2.2

/-- C4: every file name in the job list is a stem followed by `.fbx`, and
the destination name the script computes for it is exactly that stem
followed by `.glb` — extension substitution only, spacing and case
preserved. -/
theorem C4_naming :
    fbx_files = stem_list.map (fun t => t ++ ".fbx") ∧
    fbx_files.map (fun f => pyReplace f ".fbx" ".glb")
      = stem_list.map (fun t => t ++ ".glb") := by
  constructor <;> decide

/-- C5: for every filesystem, starting scene and item list (the batch is a
total function, so it terminates), the output is the opening banner, then
the per-item blocks, then the closing banner, and the closing-banner line
appears exactly once. -/
theorem C5_closing_banner (fs : String → Bool) (s : Scene)
    (items : List (String × ItemWorld)) :
    runBatch fs s items
      = openingLines ++ ((runItems fs s items).1.map (fun r => r.lines)).flatten
          ++ closingLines ∧
    (runBatch fs s items).count Line.complete = 1 := by
  refine ⟨rfl, ?_⟩
  unfold runBatch
  rw [List.count_append, List.count_append]
  have h3 : (((runItems fs s items).1.map (fun r => r.lines)).flatten).count
      Line.complete = 0 :=
    List.count_eq_zero.mpr (runItems_complete_not_mem fs items s)
  rw [h3]
  decide

/-- C8: once an iteration reaches the export step, its host calls are
exactly check, clear (select-all, delete, purges), import, a second
select-all of everything in the scene, and an export targeting the
computed destination path in the destination folder, in GLB format, with
animation export and forced per-frame sampling enabled; every object in
the scene handed to the exporter is selected. -/
theorem C8_export_call (fs : String → Bool) (s : Scene) (f : String)
    (w : ItemWorld) (p : ImportPayload)
    (hex : fs (srcPath f) = true) (hc : w.clearFault = none)
    (hi : w.importResult = .ok p) (hs : w.selectFault = none) :
    (runJob fs s f w).1.events
      = [.checkSrc (srcPath f), .hostSelectAll, .hostDelete, .hostPurgeMeshes,
         .hostPurgeArmatures, .hostPurgeActions, .hostImport (srcPath f),
         .hostSelectAll, .hostExport (dstPath f) "GLB" true true] ∧
    dstPath f = osPathJoin output_folder (pyReplace f ".fbx" ".glb") ∧
    ∀ o ∈ (runJob fs s f w).2.objects, o.selected = true := by
  rcases w with ⟨cf, ir, sf, ef⟩
  obtain rfl : cf = none := hc
  obtain rfl : ir = .ok p := hi
  obtain rfl : sf = none := hs
  refine ⟨?_, rfl, ?_⟩
  · cases ef <;> simp [runJob, hex]
  · intro o ho
    cases ef <;>
    · simp [runJob, hex, selectAllObjects, importScene, resetScene_objects] at ho
      obtain ⟨x, hx, rfl⟩ := ho
      rfl

theorem C8_witness :
    (runJob fsAll emptyScene "z.fbx" wOk).1.events
      = [.checkSrc (srcPath "z.fbx"), .hostSelectAll, .hostDelete,
         .hostPurgeMeshes, .hostPurgeArmatures, .hostPurgeActions,
         .hostImport (srcPath "z.fbx"), .hostSelectAll,
         .hostExport (dstPath "z.fbx") "GLB" true true] :=
  (C8_export_call fsAll emptyScene "z.fbx" wOk ⟨[], [], [], []⟩ rfl rfl rfl rfl).1

/-- C9: the iteration consults the filesystem only about the source path —
two filesystems that agree there (whatever either says about the
destination path) produce identical behavior, so a pre-existing file at
the destination is never detected and the export is attempted regardless;
the only existence check ever made is the one on the source path. -/
theorem C9_no_destination_check (fs1 fs2 : String → Bool) (s : Scene)
    (f : String) (w : ItemWorld)
    (h : fs1 (srcPath f) = fs2 (srcPath f)) :
    runJob fs1 s f w = runJob fs2 s f w ∧
    ((runJob fs1 s f w).1.events.filter (fun ev => ev.isCheck))
      = [.checkSrc (srcPath f)] := by
  rcases w with ⟨cf, ir, sf, ef⟩
  by_cases hb : fs2 (srcPath f) = false
  · have hb1 : fs1 (srcPath f) = false := h.trans hb
    simp [runJob, hb1, hb, Event.isCheck]
  · have hb1 : ¬ fs1 (srcPath f) = false := by
      rw [h]; exact hb
    cases cf <;> rcases ir with e | p <;> cases sf <;> cases ef <;>
      simp [runJob, hb1, hb, Event.isCheck]

theorem C9_witness :
    runJob fsAll emptyScene "x.fbx" wOk = runJob fsOnly emptyScene "x.fbx" wOk :=
  (C9_no_destination_check fsAll fsOnly emptyScene "x.fbx" wOk (by decide)).1

/-- C10: when the export step faults after a successful import, the
handler records `Failed` and prints, but performs no scene cleanup: the
scene that leaves the iteration is exactly the selected post-import scene,
still holding every imported object; only a later reset (which always
empties the object list) removes that residue. -/
theorem C10_no_cleanup (fs : String → Bool) (s : Scene) (f : String)
    (w : ItemWorld) (p : ImportPayload) (e : String)
    (hex : fs (srcPath f) = true) (hc : w.clearFault = none)
    (hi : w.importResult = .ok p) (hs : w.selectFault = none)
    (he : w.exportFault = some e) :
    (runJob fs s f w).1.outcome = Outcome.Failed e ∧
    (runJob fs s f w).1.lines
      = [.importing f,
         .found (objListCount ObjType.MESH p.objs)
                (objListCount ObjType.ARMATURE p.objs),
         .exporting (pyReplace f ".fbx" ".glb"), .errorLine f e] ∧
    (runJob fs s f w).2 = selectAllObjects (importScene (resetScene s) p) ∧
    (runJob fs s f w).2.objects
      = p.objs.map (fun o => { o with selected := true }) ∧
    (resetScene (runJob fs s f w).2).objects = [] := by
  rcases w with ⟨cf, ir, sf, ef⟩
  obtain rfl : cf = none := hc
  obtain rfl : ir = .ok p := hi
  obtain rfl : sf = none := hs
  obtain rfl : ef = some e := he
  refine ⟨?_, ?_, ?_, ?_, ?_⟩ <;>
    simp [runJob, hex, count_import_reset, objCount, selectAllObjects,
      importScene, resetScene_objects]

theorem C10_witness :
    (runJob fsAll emptyScene "y.fbx" c10World).1.outcome
      = Outcome.Failed "disk full" :=
  (C10_no_cleanup fsAll emptyScene "y.fbx" c10World c10Payload "disk full"
    rfl rfl rfl rfl rfl).1

/-- C6: the claim says that after one reset no zero-reference data block
remains; evaluating the reset on two adjacent zero-reference mesh blocks
shows the purge loop (which removes from the collection while iterating it
by index) skips the second block and leaves it as a surviving orphan,
contradicting the code's own intent of clearing orphan data. -/
theorem C6_orphan_left :
    c6Scene.meshes.all (fun b => b.users == 0) = true ∧
    (resetScene c6Scene).meshes = [⟨1, 0⟩] ∧
    (resetScene c6Scene).meshes.any (fun b => b.users == 0) = true := by
  decide

/-- C7 counterexample: on two adjacent zero-reference mesh blocks the
second reset removes the orphan the first one skipped, so reset is not
idempotent as claimed. -/
theorem C7_counterexample :
    resetScene (resetScene c7Scene) ≠ resetScene c7Scene := by
  decide

/-- C7 (amended): running the reset twice always leaves a scene with no
objects and raises no error, but it need not coincide with a single reset,
since the purge pass can skip an orphan that only the second run removes;
whenever the first reset leaves no zero-reference data block, running it
again changes nothing. -/
theorem C7_reset_pair (s : Scene) :
    (resetScene s).objects = [] ∧
    (resetScene (resetScene s)).objects = [] ∧
    (noOrphans (resetScene s) → resetScene (resetScene s) = resetScene s) := by
  refine ⟨resetScene_objects s, resetScene_objects _, fun hno => ?_⟩
  exact reset_of_clean (resetScene s) (resetScene_objects s) hno

theorem C7_witness :
    resetScene (resetScene c7CleanScene) = resetScene c7CleanScene :=
  (C7_reset_pair c7CleanScene).2.2 (by
    unfold noOrphans
    decide)

end B2B
